import Mathlib

/-!
Verification of the vbsocial job-tracking core (tracker/db.py, tracker/manager.py,
tracker/scheduler.py) against its specification.

Modelling conventions:
* timestamps are natural numbers (ISO-format strings compare consistently with
  chronological order, so only the order matters);
* one SQLite row of the `posts` table is a `Row`; the table is a `List Row` in
  insertion order; a SQL `UPDATE ... WHERE p` maps the update over every row
  satisfying `p` and reports `rowcount > 0`;
* the `post_ids` JSON blob is the association list it serializes;
* the filesystem is the list of existing job folders; job folders are never
  empty (each contains its copied artifact), so `Path.rename` onto an existing
  distinct folder raises, which is modelled as an `Except.error`;
* the external collaborators (`load_post_config`/`get_images` and the four
  per-platform posting functions) are opaque parameters: the config loader
  either raises or yields the captions map, and a destination call either
  raises, returns a falsy value (`None` paths exist in post_all.py), or
  returns a truthy external identifier.
-/

namespace VBSocial

/-- Status values of `PostStatus` in tracker/db.py. -/
inductive PostStatus
  | draft
  | ready
  | posting
  | posted
  | failed
deriving DecidableEq

/-- The string stored in the `status` column (`PostStatus.value`). -/
def PostStatus.value : PostStatus → String
  | .draft => "draft"
  | .ready => "ready"
  | .posting => "posting"
  | .posted => "posted"
  | .failed => "failed"

/-- A folder path, as `pathlib.Path`: parent directory and basename. -/
structure Folder where
  parent : String
  name : String
deriving DecidableEq

/-- String rendering of a path (`str(folder_path)`). -/
def Folder.str (f : Folder) : String := f.parent ++ "/" ++ f.name

/-- One row of the `posts` table (schema in `PostDB._init_db`). -/
structure Row where
  id : String
  created_at : Nat
  updated_at : Nat
  status : PostStatus
  scheduled_for : Option Nat
  folder_path : Folder
  source_type : Option String
  source_file : Option String
  title : Option String
  post_ids : Option (List (String × String))
  last_error : Option String
  posted_at : Option Nat
deriving DecidableEq

/-- The `posts` table, rows in insertion order. -/
abbrev DB := List Row

/-- `UPDATE posts SET ... WHERE p`: apply `f` to every row satisfying `p`
and report whether `rowcount > 0`. -/
def sqlUpdate (p : Row → Bool) (f : Row → Row) (db : DB) : DB × Bool :=
  (db.map fun r => if p r then f r else r, db.any p)

namespace PostDB

/-- `PostDB.create_post`: insert a fresh row with `status = draft` and
`created_at = updated_at = now`. -/
def create_post (db : DB) (now : Nat) (post_id : String) (folder_path : Folder)
    (source_type source_file title : Option String) : DB × String :=
  (db ++ [{ id := post_id
            created_at := now
            updated_at := now
            status := PostStatus.draft
            scheduled_for := none
            folder_path := folder_path
            source_type := source_type
            source_file := source_file
            title := title
            post_ids := none
            last_error := none
            posted_at := none }], post_id)

/-- `PostDB.get_post`: `SELECT * FROM posts WHERE id = ?` (first match). -/
def get_post (db : DB) (post_id : String) : Option Row :=
  db.find? fun r => decide (r.id = post_id)

/-- `PostDB.update_status`: unconditional status write plus `updated_at`. -/
def update_status (db : DB) (now : Nat) (post_id : String) (status : PostStatus) :
    DB × Bool :=
  sqlUpdate (fun r => decide (r.id = post_id))
    (fun r => { r with status := status, updated_at := now }) db

/-- `PostDB.update_folder_path`. -/
def update_folder_path (db : DB) (now : Nat) (post_id : String) (folder_path : Folder) :
    DB × Bool :=
  sqlUpdate (fun r => decide (r.id = post_id))
    (fun r => { r with folder_path := folder_path, updated_at := now }) db

/-- `PostDB.schedule_post`: sets `scheduled_for`, guarded by
`WHERE id = ? AND status = 'ready'`. -/
def schedule_post (db : DB) (now : Nat) (post_id : String) (scheduled_for : Nat) :
    DB × Bool :=
  sqlUpdate (fun r => decide (r.id = post_id ∧ r.status = PostStatus.ready))
    (fun r => { r with scheduled_for := some scheduled_for, updated_at := now }) db

/-- `PostDB.unschedule_post`: clears `scheduled_for` unconditionally. -/
def unschedule_post (db : DB) (now : Nat) (post_id : String) : DB × Bool :=
  sqlUpdate (fun r => decide (r.id = post_id))
    (fun r => { r with scheduled_for := none, updated_at := now }) db

/-- `PostDB.mark_posting` delegates to `update_status`. -/
def mark_posting (db : DB) (now : Nat) (post_id : String) : DB × Bool :=
  update_status db now post_id PostStatus.posting

/-- `PostDB.mark_posted`: sets `status = posted`, stores the platform-id map,
sets `posted_at`, clears `last_error`. -/
def mark_posted (db : DB) (now : Nat) (post_id : String)
    (platform_ids : List (String × String)) : DB × Bool :=
  sqlUpdate (fun r => decide (r.id = post_id))
    (fun r => { r with status := PostStatus.posted
                       post_ids := some platform_ids
                       posted_at := some now
                       last_error := none
                       updated_at := now }) db

/-- `PostDB.mark_failed`: sets `status = failed` and `last_error`. -/
def mark_failed (db : DB) (now : Nat) (post_id : String) (error : String) :
    DB × Bool :=
  sqlUpdate (fun r => decide (r.id = post_id))
    (fun r => { r with status := PostStatus.failed
                       last_error := some error
                       updated_at := now }) db

/-- `PostDB.retry_failed`: `failed -> ready`, clears `last_error`, guarded by
`WHERE id = ? AND status = 'failed'`. -/
def retry_failed (db : DB) (now : Nat) (post_id : String) : DB × Bool :=
  sqlUpdate (fun r => decide (r.id = post_id ∧ r.status = PostStatus.failed))
    (fun r => { r with status := PostStatus.ready
                       last_error := none
                       updated_at := now }) db

end PostDB

/-- Sort key used by `ORDER BY scheduled_for ASC` (rows selected by the due
query always have a non-null `scheduled_for`). -/
def schedKey (r : Row) : Nat := r.scheduled_for.getD 0

/-- Comparison relation of `ORDER BY scheduled_for ASC`. -/
def schedLE (a b : Row) : Prop := schedKey a ≤ schedKey b

instance : DecidableRel schedLE := fun _ _ => Nat.decLe _ _

instance : IsTotal Row schedLE := ⟨fun _ _ => Nat.le_total _ _⟩

instance : IsTrans Row schedLE := ⟨fun _ _ _ => Nat.le_trans⟩

/-- The `WHERE` clause of the due query:
`status = 'ready' AND scheduled_for IS NOT NULL AND scheduled_for <= now`. -/
def dueFilter (now : Nat) (r : Row) : Bool :=
  match r.scheduled_for with
  | none => false
  | some t => decide (r.status = PostStatus.ready) && decide (t ≤ now)

namespace PostDB

/-- `PostDB.get_due_posts`: due rows ordered ascending by `scheduled_for`
(the cutoff `now` is `datetime.now()` at call time). -/
def get_due_posts (db : DB) (now : Nat) : List Row :=
  List.insertionSort schedLE (db.filter (dueFilter now))

/-- `PostDB.get_scheduled_posts`: same query with an explicit cutoff. -/
def get_scheduled_posts (db : DB) (before : Nat) : List Row :=
  List.insertionSort schedLE (db.filter (dueFilter before))

end PostDB

/-- Split a character list at every occurrence of `sep`; the result is never
empty. This is the semantics of Python `str.split(sep)` for a one-character
separator (no run merging, empty pieces kept, `"".split(sep) == [""]`). -/
def splitOnChar (sep : Char) : List Char → List (List Char)
  | [] => [[]]
  | c :: cs =>
    match splitOnChar sep cs with
    | [] => [[]]
    | h :: t => if c = sep then [] :: h :: t else (c :: h) :: t

/-- Python `s.split(sep)` for a one-character separator. -/
def split_str (sep : Char) (s : String) : List String :=
  (splitOnChar sep s.data).map String.mk

/-- Python `sep.join(parts)`. -/
def join_with (sep : String) : List String → String
  | [] => ""
  | [s] => s
  | s :: rest => s ++ sep ++ join_with sep rest

/-- `PostManager._parse_folder_name`: split the basename on every underscore;
with at least 5 parts, yield `(parts[0], join(parts[1:4]), join(parts[4:]))`. -/
def parse_folder_name (folder_name : String) : Option (String × String × String) :=
  let parts := split_str '_' folder_name
  if 5 ≤ parts.length then
    some (parts.headD "",
          join_with "_" ((parts.drop 1).take 3),
          join_with "_" (parts.drop 4))
  else none

/-- The manager's world: the store plus the set of existing job folders. -/
structure World where
  db : DB
  fs : List Folder
deriving DecidableEq

namespace PostManager

/-- The folder the old one is renamed to:
`new_path = old_path.parent / f"{post_id}_{date_str}_{new_status.value}"`. -/
def renamed (post_id : String) (date_str : String) (new_status : PostStatus)
    (old_path : Folder) : Folder :=
  { parent := old_path.parent
    name := post_id ++ "_" ++ date_str ++ "_" ++ new_status.value }

/-- `PostManager.update_status`: look the job up, rename its folder to encode
the new status, then update the store. Returns the possibly mutated world and
either the Python return value (`new_path` or `None`) or a raised exception.
The rename raises when a distinct target folder already exists (job folders
are non-empty, see the file header). -/
def update_status (w : World) (now : Nat) (post_id : String)
    (new_status : PostStatus) : World × Except String (Option Folder) :=
  match PostDB.get_post w.db post_id with
  | none => (w, Except.ok none)
  | some post =>
    if post.folder_path ∈ w.fs then
      match parse_folder_name post.folder_path.name with
      | none => (w, Except.ok none)
      | some parsed =>
        if renamed post_id parsed.2.1 new_status post.folder_path ∈ w.fs ∧
            renamed post_id parsed.2.1 new_status post.folder_path ≠ post.folder_path then
          (w, Except.error ("rename failed: " ++
            (renamed post_id parsed.2.1 new_status post.folder_path).str))
        else
          ({ db := (PostDB.update_folder_path
                      (PostDB.update_status w.db now post_id new_status).1 now post_id
                      (renamed post_id parsed.2.1 new_status post.folder_path)).1
             fs := w.fs.erase post.folder_path ++
                   [renamed post_id parsed.2.1 new_status post.folder_path] },
           Except.ok (some (renamed post_id parsed.2.1 new_status post.folder_path)))
    else (w, Except.ok none)

end PostManager

/-- The fixed platform order of `Scheduler.post_single`. -/
def platforms : List String := ["facebook", "instagram", "linkedin", "x"]

/-- External collaborators of the scheduler. `cfg` is the combined effect of
`load_post_config` + `get_images` + the captions lookup for a given folder:
either a raised exception or the captions map. `dest` gives, for a job id and
a platform name, the outcome of calling that platform's posting function:
a raised exception, a falsy return (`Except.ok none`), or a truthy external
identifier (`Except.ok (some x)`). -/
structure Collab where
  cfg : Folder → Except String (List (String × String))
  dest : String → String → Except String (Option String)

/-- `captions.get(platform, "")`. -/
def captionFor (captions : List (String × String)) (platform : String) : String :=
  match captions.lookup platform with
  | some c => c
  | none => ""

/-- One iteration of the per-platform loop of `post_single`: skip an empty
caption; on a raised error append to `errors`; on a truthy result append to
`post_ids`; on a falsy result record nothing. -/
def attemptStep (captions : List (String × String))
    (dest : String → Except String (Option String))
    (acc : List (String × String) × List String) (platform : String) :
    List (String × String) × List String :=
  let caption := captionFor captions platform
  if caption = "" then acc
  else
    match dest platform with
    | Except.ok (some result) => (acc.1 ++ [(platform, result)], acc.2)
    | Except.ok none => acc
    | Except.error e => (acc.1, acc.2 ++ [platform ++ ": " ++ e])

/-- The per-platform loop of `post_single`: accumulate `post_ids` and
`errors` over the fixed platform order. -/
def attemptPlatforms (captions : List (String × String))
    (dest : String → Except String (Option String)) :
    List (String × String) × List String :=
  platforms.foldl (attemptStep captions dest) ([], [])

/-- The platforms that contribute an entry to `post_ids`: caption present and
the destination returned a truthy identifier. -/
def destSuccess (captions : List (String × String))
    (dest : String → Except String (Option String)) (platform : String) :
    Option (String × String) :=
  if captionFor captions platform = "" then none
  else
    match dest platform with
    | Except.ok (some result) => some (platform, result)
    | _ => none

/-- The error messages recorded by the per-platform loop. -/
def destFailure (captions : List (String × String))
    (dest : String → Except String (Option String)) (platform : String) :
    Option String :=
  if captionFor captions platform = "" then none
  else
    match dest platform with
    | Except.error e => some (platform ++ ": " ++ e)
    | _ => none

/-- `post_ids` as accumulated by the loop. -/
def successes (captions : List (String × String))
    (dest : String → Except String (Option String)) : List (String × String) :=
  platforms.filterMap (destSuccess captions dest)

/-- `errors` as accumulated by the loop. -/
def destErrors (captions : List (String × String))
    (dest : String → Except String (Option String)) : List String :=
  platforms.filterMap (destFailure captions dest)

namespace Scheduler

/-- `Scheduler.post_single`: returns `(success, error_message, platform_ids)`.
Success unless the folder is missing, the config fails to load, or errors were
recorded while `post_ids` stayed empty. -/
def post_single (fs : List Folder) (collab : Collab) (post : Row) :
    Bool × String × List (String × String) :=
  if post.folder_path ∈ fs then
    match collab.cfg post.folder_path with
    | Except.error e => (false, "Failed to load post config: " ++ e, [])
    | Except.ok captions =>
      let res := attemptPlatforms captions (collab.dest post.id)
      if res.2 ≠ [] ∧ res.1 = [] then (false, join_with "; " res.2, res.1)
      else (true, "", res.1)
  else (false, "Folder not found: " ++ post.folder_path.str, [])

/-- The per-job body of `Scheduler.check_and_post`: `mark_posting`, attempt the
destinations, then `mark_posted` plus the folder transition on success, or
`mark_failed` on failure. The second component is an exception escaping the
job's processing (only the folder rename can raise here); the world returned
with it keeps every mutation made before the raise. Since `mark_posting`
touches only the store, the filesystem `post_single` consults is still
`w.fs`. -/
def processOne (collab : Collab) (now : Nat) (w : World) (post : Row) :
    World × Option String :=
  let db1 := (PostDB.mark_posting w.db now post.id).1
  match post_single w.fs collab post with
  | (true, _, platform_ids) =>
    let db2 := (PostDB.mark_posted db1 now post.id platform_ids).1
    match PostManager.update_status { db := db2, fs := w.fs } now post.id PostStatus.posted with
    | (w3, Except.error e) => (w3, some e)
    | (w3, Except.ok _) => (w3, none)
  | (false, error, _) =>
    ({ db := (PostDB.mark_failed db1 now post.id error).1, fs := w.fs }, none)

/-- The `for post in due_posts` loop of `check_and_post`: process jobs in
order; an exception raised while processing one job propagates and the
remaining jobs of the cycle are not processed. -/
def processList (collab : Collab) (now : Nat) : List Row → World → World × Option String
  | [], w => (w, none)
  | post :: rest, w =>
    match processOne collab now w post with
    | (w2, some e) => (w2, some e)
    | (w2, none) => processList collab now rest w2

/-- `Scheduler.check_and_post`: query the due jobs once, then process them. -/
def check_and_post (collab : Collab) (now : Nat) (w : World) : World × Option String :=
  processList collab now (PostDB.get_due_posts w.db now) w

/-- One iteration of the `run_daemon` loop: the cycle's exception, if any, is
caught and logged at cycle level, keeping the daemon alive. -/
def run_cycle (collab : Collab) (now : Nat) (w : World) : World :=
  (check_and_post collab now w).1

end Scheduler

/-! ### Concrete fixtures used by witnesses and counterexamples -/

/-- Folder of a ready job created on 2025-06-01. -/
def folderReadyA : Folder := { parent := "/posts", name := "aa_2025_06_01_ready" }

/-- The folder name the scheduler renames `folderReadyA` to after posting. -/
def folderPostedA : Folder := { parent := "/posts", name := "aa_2025_06_01_posted" }

/-- Folder of a second ready job. -/
def folderReadyB : Folder := { parent := "/posts", name := "bb_2025_06_02_ready" }

/-- A ready job scheduled for time 5. -/
def rowA : Row :=
  { id := "aa", created_at := 0, updated_at := 0, status := PostStatus.ready
    scheduled_for := some 5, folder_path := folderReadyA
    source_type := some "image", source_file := some "photo.png", title := some "photo"
    post_ids := none, last_error := none, posted_at := none }

/-- A second ready job scheduled for time 6. -/
def rowB : Row :=
  { id := "bb", created_at := 0, updated_at := 0, status := PostStatus.ready
    scheduled_for := some 6, folder_path := folderReadyB
    source_type := some "image", source_file := some "pic.png", title := some "pic"
    post_ids := none, last_error := none, posted_at := none }

/-- A draft job (never promoted). -/
def rowDraft : Row :=
  { id := "dd", created_at := 0, updated_at := 0, status := PostStatus.draft
    scheduled_for := none
    folder_path := { parent := "/posts", name := "dd_2025_06_03_draft" }
    source_type := some "image", source_file := some "d.png", title := some "d"
    post_ids := none, last_error := none, posted_at := none }

/-- A failed job carrying an error. -/
def rowFailed : Row :=
  { id := "ff", created_at := 0, updated_at := 0, status := PostStatus.failed
    scheduled_for := none
    folder_path := { parent := "/posts", name := "ff_2025_06_04_ready" }
    source_type := some "image", source_file := some "f.png", title := some "f"
    post_ids := none, last_error := some "facebook: 500", posted_at := none }

/-- A store with the single due job `rowA` and its folder on disk. -/
def worldA : World := { db := [rowA], fs := [folderReadyA] }

/-- Two due jobs; the posted-name folder for job aa already exists on disk,
so the rename after posting aa raises. -/
def worldConflict : World :=
  { db := [rowA, rowB], fs := [folderReadyA, folderReadyB, folderPostedA] }

/-- Collaborators: config loads, facebook is attempted and returns a falsy
value without raising (a real code path of `post_to_facebook`). -/
def collabFalsy : Collab :=
  { cfg := fun _ => Except.ok [("facebook", "hi")]
    dest := fun _ _ => Except.ok none }

/-- Collaborators: config loads, facebook is attempted and raises. -/
def collabRaise : Collab :=
  { cfg := fun _ => Except.ok [("facebook", "hi")]
    dest := fun _ _ => Except.error "500" }

/-- Collaborators: config loads, facebook is attempted and returns id fb-1. -/
def collabOk : Collab :=
  { cfg := fun _ => Except.ok [("facebook", "hi")]
    dest := fun _ _ => Except.ok (some "fb-1") }

/-- Collaborators: config loads with no captions at all, so every destination
is skipped and none is ever called. -/
def collabNoCaption : Collab :=
  { cfg := fun _ => Except.ok []
    dest := fun _ _ => Except.error "never called" }

/-- The row of job aa after a successful manager transition to posted at
time 3. -/
def rowAPosted3 : Row :=
  { rowA with status := PostStatus.posted, updated_at := 3, folder_path := folderPostedA }

/-- The world after that transition. -/
def worldAfterA : World := { db := [rowAPosted3], fs := [folderPostedA] }

/-- The store state reached by create, promote to ready, schedule for 5,
then the daemon's `mark_posting` — the C3 scenario. -/
def dbSeq : DB :=
  (PostDB.mark_posting
    (PostDB.schedule_post
      (PostDB.update_status
        (PostDB.create_post [] 0 "aa" folderReadyA (some "image") (some "photo.png")
          (some "photo")).1
        1 "aa" PostStatus.ready).1
      2 "aa" 5).1
    3 "aa").1

/-! ### Helper lemmas about the embedded operations -/

theorem sqlUpdate_snd {p : Row → Bool} {f : Row → Row} {db : DB} :
    (sqlUpdate p f db).2 = db.any p := rfl

theorem sqlUpdate_eq_self {p : Row → Bool} {f : Row → Row} {db : DB}
    (h : ∀ r ∈ db, p r = false) : sqlUpdate p f db = (db, false) := by
  unfold sqlUpdate
  have h1 : db.map (fun r => if p r then f r else r) = db := by
    conv_rhs => rw [← List.map_id db]
    apply List.map_congr_left
    intro r hr
    simp [h r hr]
  have h2 : db.any p = false := by
    rw [List.any_eq_false]
    intro r hr
    simp [h r hr]
  rw [h1, h2]

theorem mem_sqlUpdate {p : Row → Bool} {f : Row → Row} {db : DB} {a : Row} :
    a ∈ (sqlUpdate p f db).1 ↔ ∃ r ∈ db, (if p r then f r else r) = a := by
  simp [sqlUpdate, List.mem_map]

theorem mem_sqlUpdate_of_pred {p : Row → Bool} {f : Row → Row} {db : DB} {r : Row}
    (hr : r ∈ db) (hp : p r = true) : f r ∈ (sqlUpdate p f db).1 :=
  mem_sqlUpdate.mpr ⟨r, hr, by rw [if_pos hp]⟩

theorem forall_mem_sqlUpdate {p : Row → Bool} {f : Row → Row} {db : DB} {Q : Row → Prop}
    (h : ∀ r ∈ db, Q (if p r then f r else r)) :
    ∀ a ∈ (sqlUpdate p f db).1, Q a := by
  intro a ha
  obtain ⟨r, hr, hEq⟩ := mem_sqlUpdate.mp ha
  exact hEq ▸ h r hr

theorem map_sqlUpdate {p : Row → Bool} {f : Row → Row} {db : DB} {α : Type}
    (φ : Row → α) (h : ∀ r, p r = true → φ (f r) = φ r) :
    (sqlUpdate p f db).1.map φ = db.map φ := by
  unfold sqlUpdate
  rw [List.map_map]
  apply List.map_congr_left
  intro r _
  by_cases hp : p r = true
  · simp [hp, h r hp]
  · simp [Bool.of_not_eq_true hp]

theorem attemptStep_foldl (captions : List (String × String))
    (dest : String → Except String (Option String)) :
    ∀ (ps : List String) (acc : List (String × String) × List String),
      ps.foldl (attemptStep captions dest) acc =
        (acc.1 ++ ps.filterMap (destSuccess captions dest),
         acc.2 ++ ps.filterMap (destFailure captions dest)) := by
  intro ps
  induction ps with
  | nil => intro acc; simp
  | cons hd tl ih =>
    intro acc
    rw [List.foldl_cons, ih]
    by_cases hc : captionFor captions hd = ""
    · simp [attemptStep, destSuccess, destFailure, hc, List.filterMap_cons]
    · cases hd2 : dest hd with
      | error e =>
        simp [attemptStep, destSuccess, destFailure, hc, hd2, List.filterMap_cons]
      | ok v =>
        cases v with
        | none =>
          simp [attemptStep, destSuccess, destFailure, hc, hd2, List.filterMap_cons]
        | some s =>
          simp [attemptStep, destSuccess, destFailure, hc, hd2, List.filterMap_cons]

theorem attemptPlatforms_eq (captions : List (String × String))
    (dest : String → Except String (Option String)) :
    attemptPlatforms captions dest = (successes captions dest, destErrors captions dest) := by
  unfold attemptPlatforms successes destErrors
  rw [attemptStep_foldl]
  simp

theorem mem_successes {captions : List (String × String)}
    {dest : String → Except String (Option String)} {pl pid : String} :
    (pl, pid) ∈ successes captions dest ↔
      pl ∈ platforms ∧ captionFor captions pl ≠ "" ∧ dest pl = Except.ok (some pid) := by
  unfold successes
  rw [List.mem_filterMap]
  constructor
  · rintro ⟨a, ha, hsome⟩
    unfold destSuccess at hsome
    by_cases hc : captionFor captions a = ""
    · rw [if_pos hc] at hsome
      cases hsome
    · rw [if_neg hc] at hsome
      cases hd2 : dest a with
      | error e => rw [hd2] at hsome; cases hsome
      | ok v =>
        cases v with
        | none => rw [hd2] at hsome; cases hsome
        | some s =>
          rw [hd2] at hsome
          simp only [Option.some.injEq, Prod.mk.injEq] at hsome
          obtain ⟨rfl, rfl⟩ := hsome
          exact ⟨ha, hc, hd2⟩
  · rintro ⟨hmem, hc, hd2⟩
    refine ⟨pl, hmem, ?_⟩
    unfold destSuccess
    rw [if_neg hc, hd2]

theorem post_single_of_success {fs : List Folder} {collab : Collab} {post : Row}
    {captions : List (String × String)}
    (hfs : post.folder_path ∈ fs)
    (hcfg : collab.cfg post.folder_path = Except.ok captions)
    (hne : successes captions (collab.dest post.id) ≠ []) :
    Scheduler.post_single fs collab post =
      (true, "", successes captions (collab.dest post.id)) := by
  unfold Scheduler.post_single
  rw [if_pos hfs, hcfg]
  simp only [attemptPlatforms_eq]
  rw [if_neg]
  rintro ⟨-, h1⟩
  exact hne h1

theorem post_single_of_all_failed {fs : List Folder} {collab : Collab} {post : Row}
    {captions : List (String × String)}
    (hfs : post.folder_path ∈ fs)
    (hcfg : collab.cfg post.folder_path = Except.ok captions)
    (hs : successes captions (collab.dest post.id) = [])
    (he : destErrors captions (collab.dest post.id) ≠ []) :
    Scheduler.post_single fs collab post =
      (false, join_with "; " (destErrors captions (collab.dest post.id)), []) := by
  unfold Scheduler.post_single
  rw [if_pos hfs, hcfg]
  simp only [attemptPlatforms_eq]
  rw [if_pos ⟨he, hs⟩, hs]

theorem post_single_of_nothing {fs : List Folder} {collab : Collab} {post : Row}
    {captions : List (String × String)}
    (hfs : post.folder_path ∈ fs)
    (hcfg : collab.cfg post.folder_path = Except.ok captions)
    (hs : successes captions (collab.dest post.id) = [])
    (he : destErrors captions (collab.dest post.id) = []) :
    Scheduler.post_single fs collab post = (true, "", []) := by
  unfold Scheduler.post_single
  rw [if_pos hfs, hcfg]
  simp only [attemptPlatforms_eq]
  rw [if_neg, hs]
  rintro ⟨h1, -⟩
  exact h1 he

theorem manager_update_db_preserves {w : World} {now : Nat} {post_id : String}
    {st : PostStatus} {Q : Row → Prop}
    (hQ : ∀ r ∈ w.db, Q r)
    (hstat : ∀ r t, Q r → Q { r with status := st, updated_at := t })
    (hfold : ∀ r fp t, Q r → Q { r with folder_path := fp, updated_at := t }) :
    ∀ a ∈ (PostManager.update_status w now post_id st).1.db, Q a := by
  have hQ1 : ∀ a ∈ (PostDB.update_status w.db now post_id st).1, Q a := by
    apply forall_mem_sqlUpdate
    intro r hr
    by_cases hp : decide (r.id = post_id) = true
    · rw [if_pos hp]; exact hstat r now (hQ r hr)
    · rw [if_neg hp]; exact hQ r hr
  unfold PostManager.update_status
  split
  · exact hQ
  · split
    · split
      · exact hQ
      · split
        · exact hQ
        · apply forall_mem_sqlUpdate
          intro r hr
          by_cases hp : decide (r.id = post_id) = true
          · rw [if_pos hp]; exact hfold r _ now (hQ1 r hr)
          · rw [if_neg hp]; exact hQ1 r hr
    · exact hQ

theorem processOne_success_rows {collab : Collab} {now : Nat} {w : World} {post : Row}
    {pids : List (String × String)}
    (hps : Scheduler.post_single w.fs collab post = (true, "", pids)) :
    ∀ a ∈ (Scheduler.processOne collab now w post).1.db, a.id = post.id →
      a.status = PostStatus.posted ∧ a.post_ids = some pids ∧
      a.posted_at = some now ∧ a.last_error = none := by
  have hQ2 : ∀ a ∈ (PostDB.mark_posted (PostDB.mark_posting w.db now post.id).1
      now post.id pids).1, a.id = post.id →
        a.status = PostStatus.posted ∧ a.post_ids = some pids ∧
        a.posted_at = some now ∧ a.last_error = none := by
    apply forall_mem_sqlUpdate
    intro r _
    by_cases hp : decide (r.id = post.id) = true
    · rw [if_pos hp]
      exact fun _ => ⟨rfl, rfl, rfl, rfl⟩
    · rw [if_neg hp]
      intro hid
      exact absurd (decide_eq_true hid) hp
  have hall : ∀ a ∈ (PostManager.update_status
      { db := (PostDB.mark_posted (PostDB.mark_posting w.db now post.id).1 now post.id pids).1,
        fs := w.fs } now post.id PostStatus.posted).1.db, a.id = post.id →
      a.status = PostStatus.posted ∧ a.post_ids = some pids ∧
      a.posted_at = some now ∧ a.last_error = none := by
    refine @manager_update_db_preserves
      { db := (PostDB.mark_posted (PostDB.mark_posting w.db now post.id).1 now post.id pids).1,
        fs := w.fs } now post.id PostStatus.posted
      (fun a => a.id = post.id → a.status = PostStatus.posted ∧
        a.post_ids = some pids ∧ a.posted_at = some now ∧ a.last_error = none)
      hQ2 ?_ ?_
    · intro r t hQr hid
      exact ⟨rfl, (hQr hid).2.1, (hQr hid).2.2.1, (hQr hid).2.2.2⟩
    · intro r fp t hQr hid
      exact hQr hid
  simp only [Scheduler.processOne, hps]
  rcases hm : PostManager.update_status
      { db := (PostDB.mark_posted (PostDB.mark_posting w.db now post.id).1 now post.id pids).1,
        fs := w.fs } now post.id PostStatus.posted with ⟨w3, r3⟩
  rw [hm] at hall
  cases r3 with
  | error e => exact hall
  | ok v => exact hall

theorem processOne_failure_eq {collab : Collab} {now : Nat} {w : World} {post : Row}
    {err : String} {l : List (String × String)}
    (hps : Scheduler.post_single w.fs collab post = (false, err, l)) :
    Scheduler.processOne collab now w post =
      ({ db := (PostDB.mark_failed (PostDB.mark_posting w.db now post.id).1 now post.id err).1,
         fs := w.fs }, none) := by
  simp only [Scheduler.processOne, hps]

theorem map_post_ids_mark_posting (db : DB) (now : Nat) (id : String) :
    (PostDB.mark_posting db now id).1.map Row.post_ids = db.map Row.post_ids :=
  map_sqlUpdate Row.post_ids fun _ _ => rfl

theorem map_post_ids_mark_failed (db : DB) (now : Nat) (id e : String) :
    (PostDB.mark_failed db now id e).1.map Row.post_ids = db.map Row.post_ids :=
  map_sqlUpdate Row.post_ids fun _ _ => rfl

/-! ### The claims -/

/-- C1: for a due job whose config loads, if at least one destination returns
an external identifier — even when other attempted destinations raise — the
job ends `posted`, its `post_ids` holds exactly the identifiers of the
succeeding destinations (characterised by the second conjunct), `posted_at`
is non-null and `last_error` is null. `processOne` is the per-job body of a
`check_and_post` cycle. -/
theorem c1_partial_success_marks_posted
    (collab : Collab) (now : Nat) (w : World) (post : Row)
    (captions : List (String × String))
    (_hdue : post ∈ PostDB.get_due_posts w.db now)
    (hfs : post.folder_path ∈ w.fs)
    (hcfg : collab.cfg post.folder_path = Except.ok captions)
    (hsucc : successes captions (collab.dest post.id) ≠ []) :
    (∀ a ∈ (Scheduler.processOne collab now w post).1.db, a.id = post.id →
      a.status = PostStatus.posted ∧
      a.post_ids = some (successes captions (collab.dest post.id)) ∧
      a.posted_at = some now ∧ a.last_error = none) ∧
    (∀ pl pid, (pl, pid) ∈ successes captions (collab.dest post.id) ↔
      pl ∈ platforms ∧ captionFor captions pl ≠ "" ∧
      collab.dest post.id pl = Except.ok (some pid)) :=
  ⟨processOne_success_rows (post_single_of_success hfs hcfg hsucc),
   fun _ _ => mem_successes⟩

/-- Witness for C1: job aa is due at time 10, facebook succeeds with fb-1. -/
theorem c1_witness :
    (∀ a ∈ (Scheduler.processOne collabOk 10 worldA rowA).1.db, a.id = rowA.id →
      a.status = PostStatus.posted ∧
      a.post_ids = some (successes [("facebook", "hi")] (collabOk.dest rowA.id)) ∧
      a.posted_at = some 10 ∧ a.last_error = none) ∧
    (∀ pl pid, (pl, pid) ∈ successes [("facebook", "hi")] (collabOk.dest rowA.id) ↔
      pl ∈ platforms ∧ captionFor [("facebook", "hi")] pl ≠ "" ∧
      collabOk.dest rowA.id pl = Except.ok (some pid)) :=
  c1_partial_success_marks_posted collabOk 10 worldA rowA [("facebook", "hi")]
    (by decide) (by decide) rfl (by decide)

/-- C2 counterexample: job aa is due, facebook is attempted (its caption is
non-empty) and returns a falsy value without raising, so zero destinations
return an identifier; yet the job ends `posted`, not `failed`. -/
theorem c2_counterexample :
    rowA ∈ PostDB.get_due_posts worldA.db 10 ∧
    captionFor [("facebook", "hi")] "facebook" ≠ "" ∧
    successes [("facebook", "hi")] (collabFalsy.dest "aa") = [] ∧
    (Scheduler.check_and_post collabFalsy 10 worldA).1.db.map Row.status =
      [PostStatus.posted] := by decide

/-- C2 (amended): when at least one attempted destination raises and zero
destinations return an identifier, the job ends `failed`, `last_error` is
the per-destination error messages joined with two-character separator
semicolon-space, and the `post_ids` column is unchanged. (An attempted
destination that returns a falsy identifier without raising records neither
a success nor an error, and with no recorded error the job is marked
`posted` instead — see the counterexample.) -/
theorem c2_all_raised_marks_failed
    (collab : Collab) (now : Nat) (w : World) (post : Row)
    (captions : List (String × String))
    (hfs : post.folder_path ∈ w.fs)
    (hcfg : collab.cfg post.folder_path = Except.ok captions)
    (hnone : successes captions (collab.dest post.id) = [])
    (herr : destErrors captions (collab.dest post.id) ≠ []) :
    (∀ a ∈ (Scheduler.processOne collab now w post).1.db, a.id = post.id →
      a.status = PostStatus.failed ∧
      a.last_error = some (join_with "; "
        (destErrors captions (collab.dest post.id)))) ∧
    (Scheduler.processOne collab now w post).1.db.map Row.post_ids =
      w.db.map Row.post_ids := by
  have hps := post_single_of_all_failed hfs hcfg hnone herr
  rw [processOne_failure_eq hps]
  constructor
  · apply forall_mem_sqlUpdate
    intro r _
    by_cases hp : decide (r.id = post.id) = true
    · rw [if_pos hp]
      exact fun _ => ⟨rfl, rfl⟩
    · rw [if_neg hp]
      intro hid
      exact absurd (decide_eq_true hid) hp
  · exact (map_post_ids_mark_failed (PostDB.mark_posting w.db now post.id).1
      now post.id _).trans (map_post_ids_mark_posting w.db now post.id)

/-- Witness for C2 (amended): facebook raises 500, job aa ends failed. -/
theorem c2_amended_witness :
    (∀ a ∈ (Scheduler.processOne collabRaise 10 worldA rowA).1.db, a.id = rowA.id →
      a.status = PostStatus.failed ∧
      a.last_error = some (join_with "; "
        (destErrors [("facebook", "hi")] (collabRaise.dest rowA.id)))) ∧
    (Scheduler.processOne collabRaise 10 worldA rowA).1.db.map Row.post_ids =
      worldA.db.map Row.post_ids :=
  c2_all_raised_marks_failed collabRaise 10 worldA rowA [("facebook", "hi")]
    (by decide) rfl (by decide) (by decide)

/-- C3 counterexample: create, promote to ready, schedule for time 5, then
the daemon's `mark_posting` — the resulting store row has a non-null
`scheduled_for` while its status is `posting`, violating the claimed
invariant. -/
theorem c3_counterexample :
    ∃ r ∈ dbSeq, r.status = PostStatus.posting ∧ r.scheduled_for = some 5 := by
  decide

/-- C3 (amended): `scheduled_for` can only be newly set while the status is
`ready` (`schedule_post` matches a row only then), but none of the
status-changing operations (`update_status`, hence `mark_posting`;
`mark_posted`; `mark_failed`; `retry_failed`) ever modifies `scheduled_for`,
so a non-null schedule may persist while the status is posting, posted or
failed until `unschedule_post` clears it. -/
theorem c3_schedule_only_set_when_ready :
    (∀ (db : DB) (now : Nat) (id : String) (t : Nat),
      (PostDB.schedule_post db now id t).2 = true →
      ∃ r ∈ db, r.id = id ∧ r.status = PostStatus.ready) ∧
    (∀ (db : DB) (now : Nat) (id : String) (st : PostStatus),
      (PostDB.update_status db now id st).1.map Row.scheduled_for =
        db.map Row.scheduled_for) ∧
    (∀ (db : DB) (now : Nat) (id : String) (pids : List (String × String)),
      (PostDB.mark_posted db now id pids).1.map Row.scheduled_for =
        db.map Row.scheduled_for) ∧
    (∀ (db : DB) (now : Nat) (id : String) (e : String),
      (PostDB.mark_failed db now id e).1.map Row.scheduled_for =
        db.map Row.scheduled_for) ∧
    (∀ (db : DB) (now : Nat) (id : String),
      (PostDB.retry_failed db now id).1.map Row.scheduled_for =
        db.map Row.scheduled_for) := by
  refine ⟨?_, ?_, ?_, ?_, ?_⟩
  · intro db now id t h
    replace h : db.any (fun r => decide (r.id = id ∧ r.status = PostStatus.ready)) = true := h
    rw [List.any_eq_true] at h
    obtain ⟨r, hr, hp⟩ := h
    obtain ⟨hid, hst⟩ := of_decide_eq_true hp
    exact ⟨r, hr, hid, hst⟩
  · intro db now id st
    exact map_sqlUpdate Row.scheduled_for fun r _ => rfl
  · intro db now id pids
    exact map_sqlUpdate Row.scheduled_for fun r _ => rfl
  · intro db now id e
    exact map_sqlUpdate Row.scheduled_for fun r _ => rfl
  · intro db now id
    exact map_sqlUpdate Row.scheduled_for fun r _ => rfl

/-- Witness for C3 (amended): a successful schedule implies a ready row. -/
theorem c3_amended_witness :
    ∃ r ∈ [rowA], r.id = "aa" ∧ r.status = PostStatus.ready :=
  c3_schedule_only_set_when_ready.1 [rowA] 2 "aa" 7 (by decide)

/-- C4: the due query returns exactly (as a permutation of the filtered
table) the rows with status ready and non-null `scheduled_for` at or before
the cutoff, ordered ascending by `scheduled_for`; membership is
characterised exactly, so it never returns a row that is not ready, is
unscheduled, or is scheduled after the cutoff. -/
theorem c4_due_query (db : DB) (now : Nat) :
    List.Sorted schedLE (PostDB.get_due_posts db now) ∧
    List.Perm (PostDB.get_due_posts db now) (db.filter (dueFilter now)) ∧
    (∀ r, r ∈ PostDB.get_due_posts db now ↔
      r ∈ db ∧ r.status = PostStatus.ready ∧
        ∃ t, r.scheduled_for = some t ∧ t ≤ now) := by
  refine ⟨List.sorted_insertionSort schedLE _, List.perm_insertionSort schedLE _, ?_⟩
  intro r
  unfold PostDB.get_due_posts
  rw [(List.perm_insertionSort schedLE _).mem_iff, List.mem_filter]
  constructor
  · rintro ⟨hmem, hf⟩
    unfold dueFilter at hf
    cases hs : r.scheduled_for with
    | none => rw [hs] at hf; cases hf
    | some t =>
      rw [hs] at hf
      simp only [Bool.and_eq_true, decide_eq_true_eq] at hf
      exact ⟨hmem, hf.1, t, rfl, hf.2⟩
  · rintro ⟨hmem, hst, t, hs, hle⟩
    refine ⟨hmem, ?_⟩
    unfold dueFilter
    rw [hs]
    simp [hst, hle]

/-- Witness for C4: the single ready, scheduled row is returned. -/
theorem c4_witness : rowA ∈ PostDB.get_due_posts [rowA] 10 :=
  ((c4_due_query [rowA] 10).2.2 rowA).mpr ⟨by decide, by decide, 5, rfl, by decide⟩

/-- C5: scheduling a job with no ready row of that id (including an absent
id) returns failure and leaves the whole table unchanged; when a ready row
with the id exists, scheduling reports success and every such row gets the
given `scheduled_for`. -/
theorem c5_schedule_ready_guard (db : DB) (now : Nat) (id : String) (t : Nat) :
    ((∀ r ∈ db, r.id = id → r.status ≠ PostStatus.ready) →
      PostDB.schedule_post db now id t = (db, false)) ∧
    ((∃ r ∈ db, r.id = id ∧ r.status = PostStatus.ready) →
      (PostDB.schedule_post db now id t).2 = true) ∧
    (∀ a ∈ (PostDB.schedule_post db now id t).1, a.id = id →
      a.status = PostStatus.ready → a.scheduled_for = some t) := by
  refine ⟨?_, ?_, ?_⟩
  · intro h
    apply sqlUpdate_eq_self
    intro r hr
    rw [decide_eq_false_iff_not]
    rintro ⟨hid, hst⟩
    exact h r hr hid hst
  · rintro ⟨r, hr, hid, hst⟩
    show db.any _ = true
    rw [List.any_eq_true]
    exact ⟨r, hr, decide_eq_true ⟨hid, hst⟩⟩
  · apply forall_mem_sqlUpdate
    intro r _
    by_cases hp : decide (r.id = id ∧ r.status = PostStatus.ready) = true
    · rw [if_pos hp]
      exact fun _ _ => rfl
    · rw [if_neg hp]
      intro hid hst
      exact absurd (decide_eq_true ⟨hid, hst⟩) hp

/-- Witness for C5: scheduling a draft job fails with no mutation, and
scheduling a ready job reports success. -/
theorem c5_witness :
    PostDB.schedule_post [rowDraft] 1 "dd" 5 = ([rowDraft], false) ∧
    (PostDB.schedule_post [rowA] 1 "aa" 7).2 = true :=
  ⟨(c5_schedule_ready_guard [rowDraft] 1 "dd" 5).1 (by decide),
   (c5_schedule_ready_guard [rowA] 1 "aa" 7).2.1 ⟨rowA, by decide, rfl, rfl⟩⟩

/-- C6: `retry_failed` never touches `scheduled_for` (stale schedules are
not cleared); with no failed row of that id it returns false and changes
nothing; a failed row of that id makes it report success and transition
that row to ready with `last_error` cleared. -/
theorem c6_retry_guard (db : DB) (now : Nat) (id : String) :
    ((PostDB.retry_failed db now id).1.map Row.scheduled_for =
      db.map Row.scheduled_for) ∧
    ((∀ r ∈ db, r.id = id → r.status ≠ PostStatus.failed) →
      PostDB.retry_failed db now id = (db, false)) ∧
    (∀ r ∈ db, r.id = id → r.status = PostStatus.failed →
      (PostDB.retry_failed db now id).2 = true ∧
      { r with status := PostStatus.ready, last_error := none, updated_at := now } ∈
        (PostDB.retry_failed db now id).1) := by
  refine ⟨map_sqlUpdate Row.scheduled_for fun r _ => rfl, ?_, ?_⟩
  · intro h
    apply sqlUpdate_eq_self
    intro r hr
    rw [decide_eq_false_iff_not]
    rintro ⟨hid, hst⟩
    exact h r hr hid hst
  · intro r hr hid hst
    have hp : decide (r.id = id ∧ r.status = PostStatus.failed) = true :=
      decide_eq_true ⟨hid, hst⟩
    refine ⟨?_, mem_sqlUpdate_of_pred hr hp⟩
    show db.any _ = true
    rw [List.any_eq_true]
    exact ⟨r, hr, hp⟩

/-- Witness for C6: retrying the failed job ff succeeds and yields the
ready row with its error cleared. -/
theorem c6_witness :
    (PostDB.retry_failed [rowFailed] 9 "ff").2 = true ∧
    { rowFailed with status := PostStatus.ready, last_error := none, updated_at := 9 } ∈
      (PostDB.retry_failed [rowFailed] 9 "ff").1 :=
  (c6_retry_guard [rowFailed] 9 "ff").2.2 rowFailed (by decide) rfl rfl

/-- C7: the manager transition mutates the store only after the rename has
succeeded. A missing job, a missing folder, or an unparseable old folder
name makes it return the failure value with the world (store and
filesystem) unchanged; and whenever the rename raises, the world is
likewise unchanged. -/
theorem c7_transition_failure_no_mutation (w : World) (now : Nat) (id : String)
    (st : PostStatus) :
    (PostDB.get_post w.db id = none →
      PostManager.update_status w now id st = (w, Except.ok none)) ∧
    (∀ post, PostDB.get_post w.db id = some post →
      (post.folder_path ∉ w.fs →
        PostManager.update_status w now id st = (w, Except.ok none)) ∧
      (parse_folder_name post.folder_path.name = none →
        PostManager.update_status w now id st = (w, Except.ok none))) ∧
    (∀ e, (PostManager.update_status w now id st).2 = Except.error e →
      (PostManager.update_status w now id st).1 = w) := by
  refine ⟨?_, ?_, ?_⟩
  · intro h
    unfold PostManager.update_status
    rw [h]
  · intro post hpost
    constructor
    · intro hnot
      unfold PostManager.update_status
      simp only [hpost]
      rw [if_neg hnot]
    · intro hparse
      unfold PostManager.update_status
      simp only [hpost]
      by_cases hin : post.folder_path ∈ w.fs
      · rw [if_pos hin]
        simp only [hparse]
      · rw [if_neg hin]
  · intro e he
    unfold PostManager.update_status at he ⊢
    cases hg : PostDB.get_post w.db id with
    | none =>
      rw [hg] at he
    | some post =>
      simp only [hg] at he ⊢
      by_cases hin : post.folder_path ∈ w.fs
      · rw [if_pos hin] at he ⊢
        cases hp : parse_folder_name post.folder_path.name with
        | none =>
          simp only [hp] at he
          exact Except.noConfusion he
        | some parsed =>
          simp only [hp] at he ⊢
          by_cases hc : PostManager.renamed id parsed.2.1 st post.folder_path ∈ w.fs ∧
              PostManager.renamed id parsed.2.1 st post.folder_path ≠ post.folder_path
          · rw [if_pos hc]
          · rw [if_neg hc] at he
            exact Except.noConfusion he
      · rw [if_neg hin] at he
        exact Except.noConfusion he

/-- Witness for C7: transitioning an absent job id leaves the world
unchanged and reports the not-found value. -/
theorem c7_witness :
    PostManager.update_status { db := [], fs := [] } 0 "zz" PostStatus.posted =
      ({ db := [], fs := [] }, Except.ok none) :=
  (c7_transition_failure_no_mutation { db := [], fs := [] } 0 "zz" PostStatus.posted).1 rfl

/-- C8 counterexample: job aa is due, its single destination raises, and the
daemon's `mark_failed` outcome completes the cycle; the store row is now
`failed` but the job's folder (both on disk and as recorded in
`folder_path`) still encodes status `ready` in its basename — folder naming
and store state have diverged after a completed core operation. -/
theorem c8_counterexample :
    (Scheduler.check_and_post collabRaise 10 worldA).1.db.map Row.status =
      [PostStatus.failed] ∧
    (Scheduler.check_and_post collabRaise 10 worldA).1.fs = [folderReadyA] ∧
    (Scheduler.check_and_post collabRaise 10 worldA).1.db.map Row.folder_path =
      [folderReadyA] ∧
    parse_folder_name folderReadyA.name = some ("aa", "2025_06_01", "ready") ∧
    PostStatus.failed.value ≠ "ready" := by decide

/-- C8 (amended): folder naming and store state are synchronized by the
manager transition — on success the renamed folder exists, its basename ends
with the new status, and the job's row records the new status and the new
folder path. The daemon's `mark_posting` and `mark_failed` steps, by
contrast, mutate only the store: on a failed posting attempt the filesystem
is untouched, so the folder keeps encoding the previous status until the
next successful transition (see the counterexample). -/
theorem c8_folder_store_sync :
    (∀ (w : World) (now : Nat) (id : String) (st : PostStatus) (w2 : World) (f : Folder),
      PostManager.update_status w now id st = (w2, Except.ok (some f)) →
        f ∈ w2.fs ∧ (∃ d, f.name = id ++ "_" ++ d ++ "_" ++ st.value) ∧
        ∀ a ∈ w2.db, a.id = id → a.status = st ∧ a.folder_path = f) ∧
    (∀ (collab : Collab) (now : Nat) (w : World) (post : Row) (err : String)
        (l : List (String × String)),
      Scheduler.post_single w.fs collab post = (false, err, l) →
        (Scheduler.processOne collab now w post).1.fs = w.fs) := by
  constructor
  · intro w now id st w2 f h
    unfold PostManager.update_status at h
    cases hg : PostDB.get_post w.db id with
    | none =>
      rw [hg] at h
      injection h with h1 h2
      injection h2 with h3
      exact Option.noConfusion h3
    | some post =>
      simp only [hg] at h
      by_cases hin : post.folder_path ∈ w.fs
      · rw [if_pos hin] at h
        cases hp : parse_folder_name post.folder_path.name with
        | none =>
          simp only [hp] at h
          injection h with h1 h2
          injection h2 with h3
          exact Option.noConfusion h3
        | some parsed =>
          simp only [hp] at h
          by_cases hc : PostManager.renamed id parsed.2.1 st post.folder_path ∈ w.fs ∧
              PostManager.renamed id parsed.2.1 st post.folder_path ≠ post.folder_path
          · rw [if_pos hc] at h
            injection h with h1 h2
            exact Except.noConfusion h2
          · rw [if_neg hc] at h
            injection h with h1 h2
            injection h2 with h3
            injection h3 with h4
            subst h4
            subst h1
            refine ⟨?_, ⟨parsed.2.1, rfl⟩, ?_⟩
            · exact List.mem_append_right _ (List.mem_singleton.mpr rfl)
            · have hst2 : ∀ a ∈ (PostDB.update_status w.db now id st).1,
                  a.id = id → a.status = st := by
                apply forall_mem_sqlUpdate
                intro r _
                by_cases hp2 : decide (r.id = id) = true
                · rw [if_pos hp2]
                  exact fun _ => rfl
                · rw [if_neg hp2]
                  intro hid
                  exact absurd (decide_eq_true hid) hp2
              apply forall_mem_sqlUpdate
              intro r hr
              by_cases hp2 : decide (r.id = id) = true
              · rw [if_pos hp2]
                intro _
                exact ⟨hst2 r hr (of_decide_eq_true hp2), rfl⟩
              · rw [if_neg hp2]
                intro hid
                exact absurd (decide_eq_true hid) hp2
      · rw [if_neg hin] at h
        injection h with h1 h2
        injection h2 with h3
        exact Option.noConfusion h3
  · intro collab now w post err l hps
    rw [processOne_failure_eq hps]

/-- Witness for C8 (amended): the transition of job aa to posted renames the
folder and updates the row consistently. -/
theorem c8_amended_witness :
    folderPostedA ∈ worldAfterA.fs ∧
    (∃ d, folderPostedA.name = "aa" ++ "_" ++ d ++ "_" ++ PostStatus.posted.value) ∧
    ∀ a ∈ worldAfterA.db, a.id = "aa" →
      a.status = PostStatus.posted ∧ a.folder_path = folderPostedA :=
  c8_folder_store_sync.1 worldA 3 "aa" PostStatus.posted worldAfterA folderPostedA
    (by rfl)

/-- C9 counterexample: jobs aa and bb are both due; processing aa succeeds
at the destinations but the folder rename raises (a folder with the posted
name already exists), the exception escapes the cycle, and the remaining due
job bb is left untouched — still `ready`, never attempted. -/
theorem c9_counterexample :
    rowB ∈ PostDB.get_due_posts worldConflict.db 10 ∧
    (Scheduler.check_and_post collabOk 10 worldConflict).2 =
      some ("rename failed: " ++ folderPostedA.str) ∧
    (Scheduler.check_and_post collabOk 10 worldConflict).1.db.map
      (fun r => (r.id, r.status)) =
      [("aa", PostStatus.posted), ("bb", PostStatus.ready)] := by decide

/-- C9 (amended): a job whose posting attempt fails — destination and
config-loading errors are all captured inside `post_single`, which never
raises — produces no exception, so it never prevents the remaining due jobs
of the cycle from being processed; only an exception raised after a
successful post, during the folder rename, aborts the remainder of the
cycle (see the counterexample). -/
theorem c9_failed_job_does_not_abort_cycle (collab : Collab) (now : Nat) (w : World)
    (post : Row) (rest : List Row) (err : String) (l : List (String × String))
    (hps : Scheduler.post_single w.fs collab post = (false, err, l)) :
    (Scheduler.processOne collab now w post).2 = none ∧
    Scheduler.processList collab now (post :: rest) w =
      Scheduler.processList collab now rest (Scheduler.processOne collab now w post).1 := by
  have h1 := @processOne_failure_eq collab now w post err l hps
  constructor
  · rw [h1]
  · simp only [Scheduler.processList, h1]

/-- Witness for C9 (amended): job aa fails on its only destination and the
cycle continues with the rest of the due list. -/
theorem c9_amended_witness :
    (Scheduler.processOne collabRaise 10 worldA rowA).2 = none ∧
    Scheduler.processList collabRaise 10 [rowA] worldA =
      Scheduler.processList collabRaise 10 []
        (Scheduler.processOne collabRaise 10 worldA rowA).1 :=
  c9_failed_job_does_not_abort_cycle collabRaise 10 worldA rowA [] "facebook: 500" []
    (by decide)

/-- C10: when the config loads but every configured destination is skipped
for lack of a caption, or every attempted destination returns a falsy
identifier without raising, `post_single` reports success with an empty
identifier map and the job is marked `posted` with empty `post_ids`, even
though nothing was delivered anywhere. -/
theorem c10_vacuous_success (collab : Collab) (now : Nat) (w : World) (post : Row)
    (captions : List (String × String))
    (hfs : post.folder_path ∈ w.fs)
    (hcfg : collab.cfg post.folder_path = Except.ok captions)
    (hs : successes captions (collab.dest post.id) = [])
    (he : destErrors captions (collab.dest post.id) = []) :
    Scheduler.post_single w.fs collab post = (true, "", []) ∧
    ∀ a ∈ (Scheduler.processOne collab now w post).1.db, a.id = post.id →
      a.status = PostStatus.posted ∧ a.post_ids = some [] := by
  have hps := post_single_of_nothing hfs hcfg hs he
  refine ⟨hps, ?_⟩
  intro a ha hid
  have h2 := processOne_success_rows hps a ha hid
  exact ⟨h2.1, h2.2.1⟩

/-- Witness for C10: no captions are configured, every destination is
skipped, and the job is marked posted with an empty identifier map. -/
theorem c10_witness :
    Scheduler.post_single worldA.fs collabNoCaption rowA = (true, "", []) ∧
    ∀ a ∈ (Scheduler.processOne collabNoCaption 10 worldA rowA).1.db, a.id = rowA.id →
      a.status = PostStatus.posted ∧ a.post_ids = some [] :=
  c10_vacuous_success collabNoCaption 10 worldA rowA []
    (by decide) rfl (by decide) (by decide)

end VBSocial
